import Mathlib

/-!
Shallow embedding of the tabular data engine of this repository: the
`DataTable` component in `src/components/ui/data-table.js` (its three
type-aware filter predicates, its filter-option dispatch, and the
state it owns: sorting, column filters, row selection) together with
the handlers its call sites attach (the sortable-header toggle, and
the select-all / select-row checkboxes of
`src/components/financials/LeasesTable.tsx`).

Modelling conventions:
* JS values reaching the predicates are modelled by `JSValue`; numbers
  are exact decimals (`n / 10 ^ e`), so binary-float rounding is not
  modelled (no claim depends on it).
* JS `Number(·)` string coercion is modelled for optional sign plus
  decimal digits with an optional fractional part; exotic forms
  (exponents, hex, `Infinity`) are mapped to NaN.  `Number(null) = 0`,
  `Number(undefined) = NaN`, booleans coerce to `0`/`1`.
* `new Date(·)` is modelled for ISO `YYYY-MM-DD` and
  `YYYY-MM-DDTHH:MM:SS` with optional trailing `Z` strings, as
  milliseconds since the Unix epoch; anything else parses to `none`
  (JS Invalid Date).  The environment timezone is taken to be UTC, so
  `date-fns` `isSameDay` compares UTC calendar days.
* The `try`/`catch` in each filter function is modelled by an
  `Except Unit Bool` body (a JS `TypeError`, e.g. `toLowerCase` on a
  non-string, is `Except.error ()`) wrapped by a handler returning
  `false`.
-/

/-- An exact decimal number with value `n / 10 ^ e`. -/
structure Dec where
  n : Int
  e : Nat
deriving DecidableEq

/-- A JS number: either NaN or an exact decimal. -/
inductive JSNum where
  | nan
  | num (d : Dec)
deriving DecidableEq

/-- JS values as they reach the filter predicates through `row.getValue`. -/
inductive JSValue where
  | null
  | undefined
  | bool (b : Bool)
  | num (n : Int) (e : Nat)
  | str (s : String)
deriving DecidableEq

/-- A filter clause as built by the `DataTable` filter UI: the
`filterValue` object `\x7btype, value\x7d`, where `type` is the operator
string chosen in the dropdown and `value` is the text of the input. -/
structure FilterClause where
  type : String
  value : String
deriving DecidableEq

/-- JS strict equality between two numbers (`NaN === NaN` is false). -/
def jsNumEq : JSNum → JSNum → Bool
  | .num a, .num b => a.n * 10 ^ b.e == b.n * 10 ^ a.e
  | _, _ => false

/-- JS `<` between two numbers (false whenever a side is NaN). -/
def jsNumLt : JSNum → JSNum → Bool
  | .num a, .num b => decide (a.n * 10 ^ b.e < b.n * 10 ^ a.e)
  | _, _ => false

/-- JS `>` between two numbers (false whenever a side is NaN). -/
def jsNumGt (a b : JSNum) : Bool := jsNumLt b a

/-- Numeric value of a list of decimal digit characters. -/
def digitsVal (l : List Char) : Int :=
  l.foldl (fun n c => n * 10 + ((c.toNat - 48 : Nat) : Int)) 0

/-- Parse an unsigned decimal literal: `digits`, `digits.digits`,
`digits.` or `.digits`.  Anything else is not a number. -/
def parseUnsigned (l : List Char) : Option Dec :=
  let p := l.span Char.isDigit
  match p.2 with
  | [] => if p.1.isEmpty then none else some ⟨digitsVal p.1, 0⟩
  | '.' :: fp =>
    if fp.all Char.isDigit && !(p.1.isEmpty && fp.isEmpty) then
      some ⟨digitsVal p.1 * 10 ^ fp.length + digitsVal fp, fp.length⟩
    else none
  | _ => none

/-- ASCII whitespace stripped by JS `Number` before parsing. -/
def isJsSpace (c : Char) : Bool :=
  c == ' ' || c == '\t' || c == '\n' || c == '\r'

/-- Strip leading and trailing whitespace. -/
def trimChars (l : List Char) : List Char :=
  ((l.dropWhile isJsSpace).reverse.dropWhile isJsSpace).reverse

/-- JS `Number(s)` for a string `s`: empty/whitespace is `0`, an
optionally signed decimal literal is its value, anything else is NaN. -/
def strToNumber (s : String) : JSNum :=
  match trimChars s.data with
  | [] => .num ⟨0, 0⟩
  | '-' :: r =>
    match parseUnsigned r with
    | some d => .num ⟨-d.n, d.e⟩
    | none => .nan
  | '+' :: r =>
    match parseUnsigned r with
    | some d => .num d
    | none => .nan
  | l =>
    match parseUnsigned l with
    | some d => .num d
    | none => .nan

/-- JS `Number(v)` for an arbitrary value. -/
def toNumber : JSValue → JSNum
  | .null => .num ⟨0, 0⟩
  | .undefined => .nan
  | .bool b => .num ⟨if b then 1 else 0, 0⟩
  | .num n e => .num ⟨n, e⟩
  | .str s => strToNumber s

/-- Lowercased character data of a string (JS `toLowerCase`, restricted
to the per-character case mapping). -/
def lowerStr (s : String) : List Char := s.data.map Char.toLower

/-- Does `l` start with `p`? -/
def startsWithChars : List Char → List Char → Bool
  | _, [] => true
  | [], _ :: _ => false
  | a :: as, b :: bs => a == b && startsWithChars as bs

/-- JS `includes`: does `l` contain `p` as a contiguous run? -/
def hasSubChars : List Char → List Char → Bool
  | [], p => p.isEmpty
  | a :: as, p => startsWithChars (a :: as) p || hasSubChars as p

/-- JS `value.toLowerCase()`: succeeds only on strings; on any other
value the property access raises a `TypeError` (`Except.error ()`). -/
def jsToLowerCase : JSValue → Except Unit (List Char)
  | .str s => .ok (lowerStr s)
  | _ => .error ()

/-- Body of `stringFilterFn` (data-table.js lines 51-66): the `switch`
inside the `try`.  `contains` and `equals` lowercase the row value
(which throws on non-strings); an unrecognized operator returns `true`. -/
def stringFilterBody (value : JSValue) (f : FilterClause) : Except Unit Bool :=
  if f.type = "contains" then
    (jsToLowerCase value).map (fun v => hasSubChars v (lowerStr f.value))
  else if f.type = "equals" then
    (jsToLowerCase value).map (fun v => v == lowerStr f.value)
  else
    .ok true

/-- The string filter predicate: the body wrapped in the source's
`try`/`catch`, whose handler returns `false`. -/
def stringFilterFn (value : JSValue) (f : FilterClause) : Bool :=
  match stringFilterBody value f with
  | .ok b => b
  | .error _ => false

/-- The number filter predicate (data-table.js lines 68-86): both sides
are coerced with `Number(·)` and compared with `===`, `>` or `<`; an
unrecognized operator returns `true`.  (`Number` never throws on the
values modelled here, so the source's `catch` branch is unreachable.) -/
def numberFilterFn (value : JSValue) (f : FilterClause) : Bool :=
  if f.type = "equals" then jsNumEq (toNumber value) (strToNumber f.value)
  else if f.type = "greaterThan" then jsNumGt (toNumber value) (strToNumber f.value)
  else if f.type = "lessThan" then jsNumLt (toNumber value) (strToNumber f.value)
  else true

/-- Is `y` a Gregorian leap year? -/
def isLeapYear (y : Int) : Bool :=
  (y % 4 == 0 && y % 100 != 0) || y % 400 == 0

/-- Number of days of month `m` (1-12) of year `y`. -/
def daysInMonth (y : Int) (m : Nat) : Nat :=
  if m = 2 then (if isLeapYear y then 29 else 28)
  else if m = 4 ∨ m = 6 ∨ m = 9 ∨ m = 11 then 30
  else 31

/-- Days from the Unix epoch to the civil date `y-m-d` (proleptic
Gregorian; the standard era-based computation). -/
def daysFromCivil (y m d : Int) : Int :=
  let y2 := if m ≤ 2 then y - 1 else y
  let era := y2.fdiv 400
  let yoe := y2 - era * 400
  let mp := (m + 9) % 12
  let doy := (153 * mp + 2).fdiv 5 + d - 1
  let doe := yoe * 365 + yoe.fdiv 4 - yoe.fdiv 100 + doy
  era * 146097 + doe - 719468

/-- Two decimal digit characters as a number. -/
def digit2 (a b : Char) : Option Nat :=
  if a.isDigit && b.isDigit then some ((a.toNat - 48) * 10 + (b.toNat - 48))
  else none

/-- Time-of-day part of an ISO date string, in milliseconds: empty
(midnight) or `THH:MM:SS` with an optional trailing `Z`. -/
def parseTimeMs : List Char → Option Int
  | [] => some 0
  | 'T' :: h1 :: h2 :: ':' :: m1 :: m2 :: ':' :: s1 :: s2 :: z =>
    match digit2 h1 h2, digit2 m1 m2, digit2 s1 s2 with
    | some h, some mi, some s =>
      if h < 24 ∧ mi < 60 ∧ s < 60 ∧ (z = [] ∨ z = ['Z']) then
        some (((h * 3600 + mi * 60 + s : Nat) : Int) * 1000)
      else none
    | _, _, _ => none
  | _ => none

/-- ISO `YYYY-MM-DD[THH:MM:SS[Z]]` string as milliseconds since the
epoch (UTC), validating the calendar fields as JS `Date` parsing does. -/
def parseDateChars : List Char → Option Int
  | y1 :: y2 :: y3 :: y4 :: '-' :: m1 :: m2 :: '-' :: d1 :: d2 :: rest =>
    match digit2 y1 y2, digit2 y3 y4, digit2 m1 m2, digit2 d1 d2 with
    | some yh, some yl, some m, some d =>
      let y : Int := ((yh * 100 + yl : Nat) : Int)
      if 1 ≤ m ∧ m ≤ 12 ∧ 1 ≤ d ∧ d ≤ daysInMonth y m then
        match parseTimeMs rest with
        | some t => some (daysFromCivil y (m : Int) (d : Int) * 86400000 + t)
        | none => none
      else none
    | _, _, _, _ => none
  | _ => none

/-- JS `new Date(s)` for a string: the timestamp, or `none` for an
Invalid Date. -/
def parseJSDate (s : String) : Option Int := parseDateChars s.data

/-- Truncation toward zero of a decimal, as JS time clipping does. -/
def decTrunc (d : Dec) : Int := d.n.tdiv (10 ^ d.e)

/-- JS `new Date(v)` for an arbitrary value: strings are parsed,
everything else goes through `Number` coercion (`null` is the epoch,
`undefined` is Invalid Date). -/
def jsDateOfValue : JSValue → Option Int
  | .null => some 0
  | .undefined => none
  | .bool b => some (if b then 1 else 0)
  | .num n e => some (decTrunc ⟨n, e⟩)
  | .str s => parseJSDate s

/-- UTC calendar day of a timestamp (floor division by a day's
milliseconds); `date-fns` `isSameDay` compares these under a UTC
environment. -/
def utcDay (t : Int) : Int := t.fdiv 86400000

/-- The date filter predicate (data-table.js lines 88-109): both sides
go through `new Date(·)`; `equals` is `isSameDay`, `greaterThan` is
`isAfter`, `lessThan` is `isBefore`, each false when a side is an
Invalid Date; an unrecognized operator returns `true`. -/
def dateFilterFn (value : JSValue) (f : FilterClause) : Bool :=
  let date := jsDateOfValue value
  let filterDate := parseJSDate f.value
  if f.type = "equals" then
    match date, filterDate with
    | some a, some b => utcDay a == utcDay b
    | _, _ => false
  else if f.type = "greaterThan" then
    match date, filterDate with
    | some a, some b => decide (b < a)
    | _, _ => false
  else if f.type = "lessThan" then
    match date, filterDate with
    | some a, some b => decide (a < b)
    | _, _ => false
  else true

/-- One entry of the filter-operator dropdown. -/
structure FilterOption where
  value : String
  label : String
deriving DecidableEq

/-- Operators offered for string columns. -/
def StringFilterOptions : List FilterOption :=
  [⟨"contains", "Contains"⟩, ⟨"equals", "Equals"⟩]

/-- Operators offered for number columns. -/
def NumberFilterOptions : List FilterOption :=
  [⟨"equals", "Equals"⟩, ⟨"greaterThan", "Greater Than"⟩, ⟨"lessThan", "Less Than"⟩]

/-- Operators offered for date columns. -/
def DateFilterOptions : List FilterOption :=
  [⟨"equals", "Equals"⟩, ⟨"greaterThan", "After"⟩, ⟨"lessThan", "Before"⟩]

/-- Operator dropdown contents per column `meta.type`
(data-table.js lines 112-123); unknown types get no operators. -/
def getFilterOptions (t : String) : List FilterOption :=
  if t = "string" then StringFilterOptions
  else if t = "number" then NumberFilterOptions
  else if t = "date" then DateFilterOptions
  else []

/-- A row as the engine sees it: `row.getValue(columnId)` is the value
the column's `accessorFn` extracted, so a row is modelled as the map
from column ids to extracted values. -/
def Row : Type := String → JSValue

/-- A column as `DataTable` consumes it: its id and its `meta.type`
tag, which drives filter-predicate attachment
(data-table.js lines 132-143). -/
structure Column where
  id : String
  metaType : String
deriving DecidableEq

/-- One active sorting entry, as stored in the `sorting` state
(`\x7bid, desc\x7d`). -/
structure SortEntry where
  id : String
  desc : Bool
deriving DecidableEq

/-- One active column filter, as stored in the `columnFilters` state:
the column id together with the clause built by the filter UI. -/
structure ColumnFilter where
  id : String
  value : FilterClause
deriving DecidableEq

/-- The state `DataTable` owns across renders (data-table.js lines
126-209): the row dataset (the `data` prop as last rendered), the
static columns, and the `useState` hooks `sorting`, `columnFilters`
and `rowSelection`.  Row selection is keyed by row id, which defaults
to the row's index in `data` (no `getRowId` is supplied), so it is a
set of indices.  `notifications` records every invocation of the
caller-supplied `onRowSelectionChange` prop (the selection it was
called with); no code path in data-table.js reads that prop, so no
operation appends to it. -/
structure DataTableState where
  data : List Row
  columns : List Column
  sorting : Option SortEntry
  columnFilters : List ColumnFilter
  rowSelection : List Nat
  notifications : List (List Nat)

/-- Initial state at mount: `defaultSort` seeds `sorting`
(data-table.js line 180), filters and selection start empty, and the
caller's callback has not been invoked. -/
def initState (data : List Row) (columns : List Column)
    (defaultSort : Option SortEntry) : DataTableState :=
  ⟨data, columns, defaultSort, [], [], []⟩

/-- Predicate attached by the `columns` memo: dispatch on the column's
`meta.type`.  A type outside string/number/date gets no `filterFn`
(and the filter UI offers it no operators), so its clauses do not
restrict rows. -/
def applyFilter (t : String) (v : JSValue) (f : FilterClause) : Bool :=
  if t = "string" then stringFilterFn v f
  else if t = "number" then numberFilterFn v f
  else if t = "date" then dateFilterFn v f
  else true

/-- Does a row satisfy one stored column filter, under the given column
schema?  A clause naming no declared column restricts nothing. -/
def columnPred (columns : List Column) (cf : ColumnFilter) (row : Row) : Bool :=
  match columns.find? (fun c => c.id == cf.id) with
  | some c => applyFilter c.metaType (row cf.id) cf.value
  | none => true

/-- Does a row pass every active column filter? -/
def rowPasses (columns : List Column) (filters : List ColumnFilter)
    (row : Row) : Bool :=
  filters.all (fun cf => columnPred columns cf row)

/-- Row at index `i` (indices come from `List.range data.length`, so
the default is never consulted in the theorems below). -/
def rowAt (st : DataTableState) (i : Nat) : Row :=
  st.data.getD i (fun _ => JSValue.undefined)

/-- Indices of the rows the filtered row model keeps: those of `data`
passing every active column filter, in dataset order. -/
def visibleIndices (st : DataTableState) : List Nat :=
  (List.range st.data.length).filter
    (fun i => rowPasses st.columns st.columnFilters (rowAt st i))

/-- Re-render with a new `data` prop (the Row Source replaced by the
host, e.g. a reloaded dataset): the `useMemo` recomputes `data`, and
every `useState` hook (sorting, filters, selection) keeps its value —
data-table.js has no effect hooked on `data`. -/
def replaceData (newData : List Row) (st : DataTableState) : DataTableState :=
  { st with data := newData }

/-- `onSortingChange` with an explicit sorting value (also covers
clearing the sort by passing `none`). -/
def setSorting (s : Option SortEntry) (st : DataTableState) : DataTableState :=
  { st with sorting := s }

/-- The sortable-header click handler
(`column.toggleSorting(column.getIsSorted() === "asc")`,
data-table.js line 158): the next direction is descending exactly when
the column is currently the active sort and ascending. -/
def toggleSortingHandler (c : String) (st : DataTableState) : DataTableState :=
  let isAsc :=
    match st.sorting with
    | some s => decide (s.id = c) && !s.desc
    | none => false
  { st with sorting := some ⟨c, isAsc⟩ }

/-- Set one row id's selection membership to `v` (tanstack stores
selected ids as keys of the `rowSelection` record; deselecting deletes
the key). -/
def setRowSelected (i : Nat) (v : Bool) (sel : List Nat) : List Nat :=
  if v then (if i ∈ sel then sel else i :: sel)
  else sel.filter (fun j => j ≠ i)

/-- The per-row checkbox handler (`row.toggleSelected(!!value)`,
LeasesTable.tsx line 102): sets that row's membership.  The caller's
`onRowSelectionChange` prop is not invoked — data-table.js never reads
it, it only hands its internal `setRowSelection` to `useReactTable`. -/
def toggleSelected (i : Nat) (v : Bool) (st : DataTableState) : DataTableState :=
  { st with rowSelection := setRowSelected i v st.rowSelection }

/-- The library's default page size.  `DataTable` enables
`getPaginationRowModel()` (data-table.js line 202) without supplying
any pagination state or rendering any page controls, so the table
stays on page 0 with the default page size of 10 for its whole life. -/
def pageSize : Nat := 10

/-- Indices of the rows on the (only ever current) page 0 of the row
model: the first `pageSize` rows the filters keep.  The paginated
model slices the sorted row model; the type-detecting sort comparators
of the library are not modelled here, so this matches the program when
no sort is active (the unsorted row model preserves dataset order),
and the selection theorems below carry that hypothesis. -/
def pageIndices (st : DataTableState) : List Nat :=
  (visibleIndices st).take pageSize

/-- The header checkbox handler (`table.toggleAllPageRowsSelected`,
LeasesTable.tsx line 95): sets membership of every row of the current
page of the row model to `v`, leaving every other row's membership
alone.  With pagination enabled this reaches only the current page's
rows, not the whole filtered row model. -/
def toggleAllPageRowsSelected (v : Bool) (st : DataTableState) : DataTableState :=
  let sel := (pageIndices st).foldl (fun sel i => setRowSelected i v sel) st.rowSelection
  { st with rowSelection := sel }

/-- Apply a filter clause to a column (`column.setFilterValue(...)`,
data-table.js line 359): a clause already active on that column is
replaced by the new one, otherwise the clause is added.  Since
`rowPasses` conjoins all active clauses regardless of position,
replacement is modelled as removing the column's old clause and
appending the new one. -/
def setFilterValue (cid : String) (f : FilterClause) (st : DataTableState) :
    DataTableState :=
  let fs := st.columnFilters.filter (fun cf => cf.id ≠ cid) ++ [⟨cid, f⟩]
  { st with columnFilters := fs }

/-- A demo row extracting the same value for every column. -/
def constRow (p : String) : Row := fun _ => JSValue.str p

/-- The spec's scenario dataset: one number column, rows priced 100
and 50. -/
def demoState : DataTableState :=
  initState [constRow "100", constRow "50"] [⟨"price", "number"⟩] none

/-- The demo state with the scenario filter price > 60 applied
(only row 0 remains visible). -/
def demoFiltered : DataTableState :=
  setFilterValue "price" ⟨"greaterThan", "60"⟩ demoState

/-- A dataset one row larger than the default page: eleven rows, all
passing the (empty) filters, so the visible row model spills onto a
second page. -/
def demoEleven : DataTableState :=
  initState (List.replicate 11 (constRow "1")) [⟨"price", "number"⟩] none

/-- The demo state with an active ascending sort on the price column. -/
def demoSorted : DataTableState :=
  setSorting (some ⟨"price", false⟩) demoState

lemma jsNumEq_nan_left (x : JSNum) : jsNumEq .nan x = false := by
  cases x <;> rfl

lemma jsNumEq_nan_right (x : JSNum) : jsNumEq x .nan = false := by
  cases x <;> rfl

lemma jsNumLt_nan_left (x : JSNum) : jsNumLt .nan x = false := by
  cases x <;> rfl

lemma jsNumLt_nan_right (x : JSNum) : jsNumLt x .nan = false := by
  cases x <;> rfl

/-- A NaN on either side of a number comparison makes every operator
of the number filter reject the row. -/
lemma numberFilter_nan_false (v : JSValue) (t s : String)
    (hop : t = "equals" ∨ t = "greaterThan" ∨ t = "lessThan")
    (hnan : toNumber v = JSNum.nan ∨ strToNumber s = JSNum.nan) :
    numberFilterFn v ⟨t, s⟩ = false := by
  rcases hop with rfl | rfl | rfl <;>
    simp only [numberFilterFn] <;>
    rcases hnan with h | h <;>
      simp [h, jsNumEq_nan_left, jsNumEq_nan_right, jsNumGt,
        jsNumLt_nan_left, jsNumLt_nan_right]

/-- An Invalid Date on either side makes every operator of the date
filter reject the row. -/
lemma dateFilter_invalid_false (v : JSValue) (t s : String)
    (hop : t = "equals" ∨ t = "greaterThan" ∨ t = "lessThan")
    (h : jsDateOfValue v = none ∨ parseJSDate s = none) :
    dateFilterFn v ⟨t, s⟩ = false := by
  rcases hop with rfl | rfl | rfl <;>
    rcases h with h | h <;>
      cases hd : jsDateOfValue v <;> cases hp : parseJSDate s <;>
        simp_all [dateFilterFn]

/-- A clause whose operator is outside the operator set offered for the
column's type is a no-op: the attached predicate accepts every row. -/
lemma applyFilter_outside_ops_true (t : String) (v : JSValue) (f : FilterClause)
    (ht : t = "string" ∨ t = "number" ∨ t = "date")
    (hop : f.type ∉ (getFilterOptions t).map FilterOption.value) :
    applyFilter t v f = true := by
  rcases ht with rfl | rfl | rfl
  · simp only [getFilterOptions, StringFilterOptions] at hop
    simp at hop
    simp [applyFilter, stringFilterFn, stringFilterBody, hop.1, hop.2]
  · simp only [getFilterOptions, NumberFilterOptions] at hop
    simp at hop
    simp [applyFilter, numberFilterFn, hop.1, hop.2.1, hop.2.2]
  · simp only [getFilterOptions, DateFilterOptions] at hop
    simp at hop
    simp [applyFilter, dateFilterFn, hop.1, hop.2.1, hop.2.2]

/-- Membership after setting one id's selection state. -/
lemma mem_setRowSelected (j i : Nat) (v : Bool) (sel : List Nat) :
    j ∈ setRowSelected i v sel ↔ (j = i ∧ v = true) ∨ (j ≠ i ∧ j ∈ sel) := by
  unfold setRowSelected
  cases v with
  | true =>
    by_cases hm : i ∈ sel <;> by_cases hj : j = i <;>
      simp_all
  | false =>
    by_cases hj : j = i <;> simp_all [List.mem_filter]

/-- Membership after setting a whole list of ids to `v`: ids in the
list take `v`, the rest keep their previous membership. -/
lemma mem_foldl_setRowSelected (v : Bool) (L : List Nat) (init : List Nat)
    (j : Nat) :
    (j ∈ L.foldl (fun sel i => setRowSelected i v sel) init) ↔
      ((j ∈ L ∧ v = true) ∨ (j ∉ L ∧ j ∈ init)) := by
  induction L generalizing init with
  | nil => simp
  | cons a as ih =>
    simp only [List.foldl_cons, ih, mem_setRowSelected, List.mem_cons]
    by_cases hj : j = a <;> by_cases hv : v = true <;> tauto


/-- C1: the claim as stated is false on the code: after replacing the
Row Source of an engine whose row 0 was selected, row 0 is still
selected (data-table.js never resets `rowSelection` when the `data`
prop changes). -/
theorem c1_selection_survives_replace_counterexample :
    0 ∈ (replaceData [constRow "7"] (toggleSelected 0 true demoState)).rowSelection := by
  decide

/-- C1 (amended): replacing the Row Source leaves the Selection Set
unchanged — the engine performs no selection reset on a dataset
change, so the index-keyed selection simply carries over to the new
dataset. -/
theorem c1_replaceData_preserves_selection (newData : List Row)
    (st : DataTableState) :
    (replaceData newData st).rowSelection = st.rowSelection := rfl

/-- C2: selecting row 0 changes the Selection Set from empty to
nonempty, yet the caller-supplied `onRowSelectionChange` is never
invoked (`notifications` stays empty): data-table.js never reads that
prop, so the change-notification promised by the spec never fires. -/
theorem c2_selection_change_without_notification :
    (toggleSelected 0 true demoState).rowSelection = [0] ∧
    demoState.rowSelection = [] ∧
    (toggleSelected 0 true demoState).notifications = [] :=
  ⟨rfl, rfl, rfl⟩

/-- C3: the claim as stated is false on the code: a null row value is
claimed to never match, but JS coerces `Number(null)` to `0`, so the
clause equals-0 matches a null value. -/
theorem c3_null_matches_zero_counterexample :
    numberFilterFn JSValue.null ⟨"equals", "0"⟩ = true := by decide

/-- C3 (amended): for a number column clause with operator equals,
greaterThan or lessThan, if the operand or the extracted value coerces
to NaN under JS `Number` (a non-numeric string, or `undefined`), the
clause never matches; `null` instead coerces to `0` and is compared
numerically. -/
theorem c3_nan_never_matches (v : JSValue) (t s : String)
    (hop : t = "equals" ∨ t = "greaterThan" ∨ t = "lessThan")
    (hnan : toNumber v = JSNum.nan ∨ strToNumber s = JSNum.nan) :
    numberFilterFn v ⟨t, s⟩ = false :=
  numberFilter_nan_false v t s hop hnan

/-- C3 witness: an `undefined` value (NaN after coercion) never
matches equality with 5. -/
theorem c3_nan_never_matches_witness :
    numberFilterFn JSValue.undefined ⟨"equals", "5"⟩ = false :=
  c3_nan_never_matches JSValue.undefined "equals" "5" (Or.inl rfl) (Or.inl rfl)

/-- C4: the claim as stated is false on the code: with the
price > 60 clause active (visible rows `[0]`), applying a
foreign-operator `contains` clause to the same number column replaces
the old clause, and the visible rows grow to `[0, 1]` — not unchanged. -/
theorem c4_replacing_clause_counterexample :
    visibleIndices demoFiltered = [0] ∧
    visibleIndices (setFilterValue "price" ⟨"contains", "5"⟩ demoFiltered)
      = [0, 1] ∧
    (visibleIndices (setFilterValue "price" ⟨"contains", "5"⟩ demoFiltered)
        == visibleIndices demoFiltered) = false :=
  ⟨by decide, by decide, by decide⟩

/-- C4 (amended): applying a clause whose operator lies outside the
operator set offered for the column's type (string, number or date) to
a column with no currently active clause leaves the set of visible
rows unchanged — the attached predicate accepts every row.  (When a
clause is already active on that column, `setFilterValue` replaces it,
which can change the visible rows.) -/
theorem c4_foreign_operator_noop_when_column_unfiltered (st : DataTableState)
    (cid : String) (f : FilterClause) (col : Column)
    (hfind : st.columns.find? (fun c => c.id == cid) = some col)
    (ht : col.metaType = "string" ∨ col.metaType = "number" ∨ col.metaType = "date")
    (hop : f.type ∉ (getFilterOptions col.metaType).map FilterOption.value)
    (hnone : ∀ cf ∈ st.columnFilters, cf.id ≠ cid) :
    visibleIndices (setFilterValue cid f st) = visibleIndices st := by
  have hfilter : st.columnFilters.filter (fun cf => cf.id ≠ cid)
      = st.columnFilters := by
    rw [List.filter_eq_self]
    intro cf hcf
    exact decide_eq_true (hnone cf hcf)
  have hpred : ∀ i, rowPasses st.columns (st.columnFilters ++ [⟨cid, f⟩]) (rowAt st i)
      = rowPasses st.columns st.columnFilters (rowAt st i) := by
    intro i
    have happ := applyFilter_outside_ops_true col.metaType (rowAt st i cid) f ht hop
    simp [rowPasses, List.all_append, columnPred, hfind, happ]
  show (List.range st.data.length).filter
        (fun i => rowPasses st.columns
          (st.columnFilters.filter (fun cf => cf.id ≠ cid) ++ [⟨cid, f⟩])
          (rowAt st i))
      = (List.range st.data.length).filter
        (fun i => rowPasses st.columns st.columnFilters (rowAt st i))
  rw [hfilter]
  exact List.filter_congr (fun i _ => hpred i)

/-- C4 witness: a `contains` clause on the (unfiltered) number column
of the demo state changes nothing. -/
theorem c4_foreign_operator_noop_witness :
    visibleIndices (setFilterValue "price" ⟨"contains", "5"⟩ demoState)
      = visibleIndices demoState :=
  c4_foreign_operator_noop_when_column_unfiltered demoState "price"
    ⟨"contains", "5"⟩ ⟨"price", "number"⟩ rfl (Or.inr (Or.inl rfl))
    (by decide) (by decide)

/-- C5: the claim as stated is false on the code: with eleven visible
rows and pagination enabled, the select-all checkbox sets only the
current page's ten rows, so visible row 10 is not selected afterwards. -/
theorem c5_page_limit_counterexample :
    10 ∈ visibleIndices demoEleven ∧
    ((toggleAllPageRowsSelected true demoEleven).rowSelection.contains 10)
      = false :=
  ⟨by decide, by decide⟩

/-- C5 (amended): with no active sort, the select-all checkbox sets
the membership of every post-filter row on the current page (the first
`pageSize` visible rows; the component renders no page controls, so
the table is always on page 0) to the chosen value, and every other
row — visible rows beyond the page, and filtered-out rows — keeps its
previous selection state. -/
theorem c5_toggleAllPageRows_sets_page_membership (st : DataTableState)
    (v : Bool) (i : Nat) (_hsort : st.sorting = none) :
    (i ∈ pageIndices st →
      (i ∈ (toggleAllPageRowsSelected v st).rowSelection ↔ v = true)) ∧
    (i ∉ pageIndices st →
      (i ∈ (toggleAllPageRowsSelected v st).rowSelection ↔ i ∈ st.rowSelection)) := by
  have hsel : (toggleAllPageRowsSelected v st).rowSelection
      = (pageIndices st).foldl (fun sel i => setRowSelected i v sel)
          st.rowSelection := rfl
  have h := mem_foldl_setRowSelected v (pageIndices st) st.rowSelection i
  constructor
  · intro hi
    rw [hsel, h]
    tauto
  · intro hi
    rw [hsel, h]
    tauto

/-- C5 witness: with the filter price > 60 active (and no sort),
select-all selects the visible row 0, while the filtered-out row 1
keeps its previous (unselected) state. -/
theorem c5_toggleAllPageRows_witness :
    (0 ∈ (toggleAllPageRowsSelected true demoFiltered).rowSelection) ∧
    (1 ∈ (toggleAllPageRowsSelected true demoFiltered).rowSelection ↔
      1 ∈ demoFiltered.rowSelection) :=
  ⟨((c5_toggleAllPageRows_sets_page_membership demoFiltered true 0 rfl).1
      (by decide)).mpr rfl,
    (c5_toggleAllPageRows_sets_page_membership demoFiltered true 1 rfl).2
      (by decide)⟩

/-- C6: a date equals clause matches exactly when both the extracted
value and the operand parse as dates falling on the same calendar day
(so an invalid date on either side never matches); in particular the
operand 2024-01-15 matches the value 2024-01-15T08:00:00Z and rejects
2024-01-16T00:00:00Z. -/
theorem c6_date_equals_same_calendar_day :
    (∀ (v : JSValue) (s : String),
      dateFilterFn v ⟨"equals", s⟩ = true ↔
        ∃ a b, jsDateOfValue v = some a ∧ parseJSDate s = some b ∧
          utcDay a = utcDay b) ∧
    dateFilterFn (.str "2024-01-15T08:00:00Z") ⟨"equals", "2024-01-15"⟩ = true ∧
    dateFilterFn (.str "2024-01-16T00:00:00Z") ⟨"equals", "2024-01-15"⟩ = false := by
  refine ⟨?_, by decide, by decide⟩
  intro v s
  simp only [dateFilterFn, if_pos rfl]
  cases hd : jsDateOfValue v <;> cases hp : parseJSDate s <;>
    simp [hd, hp]

/-- C7: the sortable-header toggle flips the direction when its column
is already the active sort, and otherwise makes its column the active
sort in ascending direction. -/
theorem c7_toggleSorting (st : DataTableState) (c : String) :
    (∀ d, st.sorting = some ⟨c, d⟩ →
      (toggleSortingHandler c st).sorting = some ⟨c, !d⟩) ∧
    ((∀ e, st.sorting = some e → e.id ≠ c) →
      (toggleSortingHandler c st).sorting = some ⟨c, false⟩) := by
  constructor
  · intro d h
    simp [toggleSortingHandler, h]
  · intro h
    cases hs : st.sorting with
    | none => simp [toggleSortingHandler, hs]
    | some e =>
      have he := h e hs
      simp [toggleSortingHandler, hs, he]

/-- C7 witness: toggling the active ascending price sort flips it to
descending. -/
theorem c7_toggleSorting_witness :
    (toggleSortingHandler "price" demoSorted).sorting = some ⟨"price", true⟩ :=
  (c7_toggleSorting demoSorted "price").1 false rfl

/-- C8: changing the Sort Spec — toggling a header or setting/clearing
the sorting state directly — leaves the Selection Set untouched. -/
theorem c8_sort_changes_preserve_selection (st : DataTableState) (c : String)
    (s : Option SortEntry) :
    (toggleSortingHandler c st).rowSelection = st.rowSelection ∧
    (setSorting s st).rowSelection = st.rowSelection :=
  ⟨rfl, rfl⟩

/-- C9: the filter predicates are total Lean functions over every
modelled JS value, and every failure path yields `false` rather than
an error: a thrown `TypeError` in the string predicate is caught to
`false`, a NaN on either side of a number comparison rejects the row,
and an Invalid Date on either side of a date comparison rejects the
row. -/
theorem c9_filter_predicates_degrade_to_false (v : JSValue) (f : FilterClause) :
    (stringFilterBody v f = Except.error () → stringFilterFn v f = false) ∧
    ((f.type = "equals" ∨ f.type = "greaterThan" ∨ f.type = "lessThan") →
      (toNumber v = JSNum.nan ∨ strToNumber f.value = JSNum.nan) →
      numberFilterFn v f = false) ∧
    ((f.type = "equals" ∨ f.type = "greaterThan" ∨ f.type = "lessThan") →
      (jsDateOfValue v = none ∨ parseJSDate f.value = none) →
      dateFilterFn v f = false) := by
  obtain ⟨t, s⟩ := f
  refine ⟨?_, ?_, ?_⟩
  · intro h
    simp [stringFilterFn, h]
  · exact numberFilter_nan_false v t s
  · exact dateFilter_invalid_false v t s

/-- C9 witness: a null value with a non-numeric, non-date operand is
rejected (not an error) by all three predicates. -/
theorem c9_filter_predicates_degrade_to_false_witness :
    stringFilterFn JSValue.null ⟨"equals", "abc"⟩ = false ∧
    numberFilterFn JSValue.null ⟨"equals", "abc"⟩ = false ∧
    dateFilterFn JSValue.null ⟨"equals", "abc"⟩ = false :=
  ⟨(c9_filter_predicates_degrade_to_false JSValue.null ⟨"equals", "abc"⟩).1 rfl,
    (c9_filter_predicates_degrade_to_false JSValue.null ⟨"equals", "abc"⟩).2.1
      (Or.inl rfl) (Or.inr (by decide)),
    (c9_filter_predicates_degrade_to_false JSValue.null ⟨"equals", "abc"⟩).2.2
      (Or.inl rfl) (Or.inr (by decide))⟩

/-- C10: date greaterThan and lessThan clauses compare full timestamps,
not calendar days: they match exactly when both sides parse and the
value's instant is strictly after (resp. before) the operand's; in
particular 2024-01-15T08:00:00Z is after the operand 2024-01-15
(parsed as midnight) although both fall on the same calendar day. -/
theorem c10_date_order_compares_instants :
    (∀ (v : JSValue) (s : String),
      dateFilterFn v ⟨"greaterThan", s⟩ = true ↔
        ∃ a b, jsDateOfValue v = some a ∧ parseJSDate s = some b ∧ b < a) ∧
    (∀ (v : JSValue) (s : String),
      dateFilterFn v ⟨"lessThan", s⟩ = true ↔
        ∃ a b, jsDateOfValue v = some a ∧ parseJSDate s = some b ∧ a < b) ∧
    dateFilterFn (.str "2024-01-15T08:00:00Z")
      ⟨"greaterThan", "2024-01-15"⟩ = true := by
  refine ⟨?_, ?_, by decide⟩ <;> intro v s
  · simp only [dateFilterFn, if_neg (by decide : ¬("greaterThan" = "equals")),
      if_pos rfl]
    cases hd : jsDateOfValue v <;> cases hp : parseJSDate s <;>
      simp [hd, hp]
  · simp only [dateFilterFn, if_neg (by decide : ¬("lessThan" = "equals")),
      if_neg (by decide : ¬("lessThan" = "greaterThan")), if_pos rfl]
    cases hd : jsDateOfValue v <;> cases hp : parseJSDate s <;>
      simp [hd, hp]
